import Mathlib

/-!
Verification of the health-check sweep engine in `src/app.py`.

The Python program polls a roster of web applications: `check_endpoint` issues
one HTTP GET and classifies the outcome, `extract_git_info` pulls git/build
metadata out of a loosely typed response body, `check_single_webapp` combines
two probes into one per-service result dictionary, and `check_all_webapps`
runs the per-service checks over a thread pool and assembles the report.

The embedding below is shallow: Python dictionaries become association lists
over a universe `PyVal` of Python values, the network interaction of one
`requests.get` call becomes an explicit `Exchange` value describing what the
HTTP library did, and Python code that can raise becomes `Except String`.
Each Lean definition mirrors the control flow of the source function of the
same name.
-/

/-- Universe of Python values as used by the program: `None`, booleans,
integers, strings, lists and string-keyed dictionaries (the shapes JSON
decoding can produce and the program manipulates). -/
inductive PyVal where
  | vnone
  | vbool (b : Bool)
  | vint (n : Int)
  | vstr (s : String)
  | vlist (xs : List PyVal)
  | vdict (xs : List (String × PyVal))

/-- A Python dictionary with string keys, as an insertion-ordered
association list (first binding of a key is the live one; the program never
builds duplicate keys). -/
abbrev PyDict := List (String × PyVal)

/-- Lookup of a key in a dictionary: `d[k]` as an `Option`. -/
def dictLookup (d : PyDict) (k : String) : Option PyVal :=
  match d with
  | [] => Option.none
  | (k0, v0) :: rest => if k0 = k then some v0 else dictLookup rest k

/-- Python `d.get(k, default)`. -/
def dictGet (d : PyDict) (k : String) (default : PyVal) : PyVal :=
  (dictLookup d k).getD default

/-- Python `d[k] = v`: replace the first binding of `k` in place, or append a
new binding (insertion order preserved, as for CPython dicts). -/
def dictSet (d : PyDict) (k : String) (v : PyVal) : PyDict :=
  match d with
  | [] => [(k, v)]
  | (k0, v0) :: rest => if k0 = k then (k, v) :: rest else (k0, v0) :: dictSet rest k v

/-- Python truthiness of a value (`bool(v)`): `None`, `False`, `0`, the empty
string, list and dict are falsy. -/
def pyTruthy : PyVal → Bool
  | PyVal.vnone => false
  | PyVal.vbool b => b
  | PyVal.vint n => n != 0
  | PyVal.vstr s => !s.isEmpty
  | PyVal.vlist xs => !xs.isEmpty
  | PyVal.vdict xs => !xs.isEmpty

/-- Python `isinstance(v, dict)`. -/
def isMapping : PyVal → Bool
  | PyVal.vdict _ => true
  | _ => false

/-- Python slicing `v[:8]`: defined on strings and lists (sequences), a
`TypeError` on any other value. -/
def pySlice8 : PyVal → Except String PyVal
  | PyVal.vstr s => Except.ok (PyVal.vstr (s.take 8))
  | PyVal.vlist xs => Except.ok (PyVal.vlist (xs.take 8))
  | _ => Except.error "TypeError: value is not subscriptable"

/-- The message of the `AttributeError` raised by `x.get(...)` when `x` is not
a dictionary (model stand-in for the CPython message text). -/
def gitAttrError : String := "AttributeError: value has no attribute get"

/-- Line 91 of `app.py`:
`git_data.get('commit', {}).get('id', 'N/A')[:8] if git_data.get('commit') else 'N/A'`.
When `git_data.get('commit')` is truthy, `.get` raises `AttributeError` on a
non-dict commit value, and the slice `[:8]` raises `TypeError` on a
non-sliceable id value. -/
def commitPart (gd : PyDict) : Except String PyVal :=
  if pyTruthy (dictGet gd "commit" PyVal.vnone) then
    match dictGet gd "commit" (PyVal.vdict []) with
    | PyVal.vdict cd => pySlice8 (dictGet cd "id" (PyVal.vstr "N/A"))
    | _ => Except.error gitAttrError
  else
    Except.ok (PyVal.vstr "N/A")

/-- Lines 88-91 of `app.py`: the `if isinstance(git_data, dict)` block, which
assigns `branch` and `commit` into `git_info`. -/
def gitPart (git_info : PyDict) (git_data : PyVal) : Except String PyDict :=
  match git_data with
  | PyVal.vdict gd =>
    match commitPart gd with
    | Except.ok c =>
        Except.ok (dictSet (dictSet git_info "branch" (dictGet gd "branch" (PyVal.vstr "N/A")))
          "commit" c)
    | Except.error e => Except.error e
  | _ => Except.ok git_info

/-- Lines 94-96 of `app.py`: the `if isinstance(build_info, dict)` block,
which assigns `java_version` into `git_info`. -/
def buildPart (git_info : PyDict) (build_info : PyVal) : PyDict :=
  match build_info with
  | PyVal.vdict bd => dictSet git_info "java_version" (dictGet bd "version" (PyVal.vstr "N/A"))
  | _ => git_info

/-- `extract_git_info(info_data)` of `app.py` (lines 83-98). Starts from an
empty `git_info` dict; on a mapping input reads `git` and `build` with
`.get(..., {})` and fills in fields; returns the dict, or propagates the
exception raised on a malformed `commit` value. -/
def extract_git_info : PyVal → Except String PyDict
  | PyVal.vdict d =>
    match gitPart [] (dictGet d "git" (PyVal.vdict [])) with
    | Except.ok gi => Except.ok (buildPart gi (dictGet d "build" (PyVal.vdict [])))
    | Except.error e => Except.error e
  | _ => Except.ok []

/-- What one `requests.get(url, timeout=...)` call did, seen from the caller:
either an HTTP response arrived (with its status code, the JSON decoding of
its body when `response.json()` succeeds, and its raw text), or one of the
exception classes handled by `check_endpoint` was raised. The `url` and
`timeout` arguments of `check_endpoint` influence only which of these
outcomes occurs, never how an outcome is classified, so the embedding takes
the outcome itself as input. -/
inductive Exchange where
  | response (status : Nat) (jsonBody : Option PyVal) (text : String)
  | timeoutExc
  | connectionErrorExc
  | otherExc (msg : String)

/-- The dictionary returned by `check_endpoint`: fields `status_code`,
`success`, `data`, `error` (Python `None` rendered as `Option.none`). -/
structure ProbeOutcome where
  status_code : Option Nat
  success : Bool
  data : Option PyVal
  error : Option String

/-- `check_endpoint(url, timeout)` of `app.py` (lines 32-81), as a function of
the exchange outcome: status 200 yields success with the decoded body (or the
raw text when decoding fails), any other status yields `HTTP <code>`, and the
three exception handlers yield `Timeout`, `Connection Error`, or `str(e)`. -/
def check_endpoint : Exchange → ProbeOutcome
  | Exchange.response status jsonBody text =>
    if status = 200 then
      match jsonBody with
      | some v => ⟨some status, true, some v, Option.none⟩
      | Option.none => ⟨some status, true, some (PyVal.vstr text), Option.none⟩
    else
      ⟨some status, false, Option.none, some ("HTTP " ++ toString status)⟩
  | Exchange.timeoutExc => ⟨Option.none, false, Option.none, some "Timeout"⟩
  | Exchange.connectionErrorExc => ⟨Option.none, false, Option.none, some "Connection Error"⟩
  | Exchange.otherExc msg => ⟨Option.none, false, Option.none, some msg⟩

/-- Render an optional status code as the Python value stored in the result
dict (`None` or the integer). -/
def optCodeToPy : Option Nat → PyVal
  | Option.none => PyVal.vnone
  | some n => PyVal.vint n

/-- Render an optional error string as the Python value stored in the result
dict (`None` or the string). -/
def optStrToPy : Option String → PyVal
  | Option.none => PyVal.vnone
  | some s => PyVal.vstr s

/-- Truthiness of the `data` field (`None` or a value). -/
def pyTruthyOpt : Option PyVal → Bool
  | Option.none => false
  | some v => pyTruthy v

/-- Lines 102-114 of `app.py`: `result = webapp.copy()` followed by the six
assignments of the health and info probe fields, in source order. -/
def probe_fields (webapp : PyDict) (health info : ProbeOutcome) : PyDict :=
  dictSet (dictSet (dictSet (dictSet (dictSet (dictSet webapp
    "health_status" (PyVal.vbool health.success))
    "health_error" (optStrToPy health.error))
    "health_status_code" (optCodeToPy health.status_code))
    "info_status" (PyVal.vbool info.success))
    "info_error" (optStrToPy info.error))
    "info_status_code" (optCodeToPy info.status_code)

/-- `check_single_webapp(webapp)` of `app.py` (lines 100-123), as a function
of the webapp dict and of the two exchange outcomes its two `check_endpoint`
calls observe. It copies the webapp dict, stores the six probe fields, and
attaches `git_info` (extracted when the info probe succeeded with truthy
data, empty otherwise). The exception `extract_git_info` may raise escapes
this function, hence the `Except`. -/
def check_single_webapp (webapp : PyDict) (healthExch infoExch : Exchange) :
    Except String PyDict :=
  let info := check_endpoint infoExch
  let result := probe_fields webapp (check_endpoint healthExch) info
  if info.success && pyTruthyOpt info.data then
    match extract_git_info (info.data.getD PyVal.vnone) with
    | Except.ok gi => Except.ok (dictSet result "git_info" (PyVal.vdict gi))
    | Except.error e => Except.error e
  else
    Except.ok (dictSet result "git_info" (PyVal.vdict []))

/-- Lines 153-162 of `app.py`: the fallback result built in the coordinator
when `future.result()` raises — a copy of the webapp dict updated with the
five fields of the literal passed to `error_result.update`, in order. Note
that no `health_status_code` or `info_status_code` field is set. -/
def fallback_result (webapp : PyDict) (msg : String) : PyDict :=
  dictSet (dictSet (dictSet (dictSet (dictSet webapp
    "health_status" (PyVal.vbool false))
    "health_error" (PyVal.vstr ("Check failed: " ++ msg)))
    "info_status" (PyVal.vbool false))
    "info_error" (PyVal.vstr ("Check failed: " ++ msg)))
    "git_info" (PyVal.vdict [])

/-- One iteration of the `for future in as_completed(...)` loop (lines
148-162): take the completed task's outcome, or on an escaped exception the
fallback result for that task's webapp. A completed task is the webapp
together with the two exchanges its probes observed. -/
def process_future : PyDict × Exchange × Exchange → PyDict
  | (w, he, ie) =>
    match check_single_webapp w he ie with
    | Except.ok r => r
    | Except.error e => fallback_result w e

/-- The JSON report returned by the `/check` route: `success`, optional
`error`, `results`, optional `timestamp`. -/
structure SweepReport where
  success : Bool
  error : Option String
  results : List PyDict
  timestamp : Option String

/-- `check_all_webapps` of `app.py` (lines 131-168), as a function of the
roster read from the CSV, of the completed tasks in the order `as_completed`
yields them (each with the exchanges its probes observed), and of the
assembly time string. An empty roster returns the fixed failure report;
otherwise every completed task contributes exactly one entry, in completion
order, and the report carries `success=true` and the timestamp. -/
def check_all_webapps (webapps : List PyDict)
    (completed : List (PyDict × Exchange × Exchange)) (ts : String) : SweepReport :=
  if webapps.isEmpty then
    { success := false, error := some "No webapp data found", results := [],
      timestamp := Option.none }
  else
    { success := true, error := Option.none, results := completed.map process_future,
      timestamp := some ts }

-- Sanity checks on concrete inputs (kept as anonymous examples).

example : extract_git_info (PyVal.vdict []) =
    Except.ok [("branch", PyVal.vstr "N/A"), ("commit", PyVal.vstr "N/A"),
      ("java_version", PyVal.vstr "N/A")] := rfl

example : extract_git_info (PyVal.vstr "OK") = Except.ok [] := rfl

example : extract_git_info
    (PyVal.vdict [("git", PyVal.vdict [("branch", PyVal.vstr "main"),
        ("commit", PyVal.vdict [("id", PyVal.vstr "abcdef1234567")])]),
      ("build", PyVal.vdict [("version", PyVal.vstr "1.2.0")])]) =
    Except.ok [("branch", PyVal.vstr "main"), ("commit", PyVal.vstr "abcdef12"),
      ("java_version", PyVal.vstr "1.2.0")] := rfl

example : extract_git_info
    (PyVal.vdict [("git", PyVal.vdict [("commit", PyVal.vstr "abc")])]) =
    Except.error gitAttrError := rfl

example : extract_git_info
    (PyVal.vdict [("git", PyVal.vdict [("commit", PyVal.vdict [("id", PyVal.vstr "")])])]) =
    Except.ok [("branch", PyVal.vstr "N/A"), ("commit", PyVal.vstr ""),
      ("java_version", PyVal.vstr "N/A")] := rfl

example : check_endpoint (Exchange.response 404 Option.none "nf") =
    ⟨some 404, false, Option.none, some "HTTP 404"⟩ := rfl

/-- Modelled from the spec: the behavior of `requests.get` — an external
dependency whose code is not part of this repository — on an empty URL. Per
the `requests` exception hierarchy, `requests.get("")` raises
`MissingSchema`, a `RequestException` that is neither
`requests.exceptions.Timeout` nor `requests.exceptions.ConnectionError`, so
it reaches the generic `except Exception` handler of `check_endpoint`; its
message reads: Invalid URL (the url): No scheme supplied. Perhaps you meant
https://?. In the embedding this is the `otherExc` exchange carrying that
message. -/
def emptyUrlExchange : Exchange :=
  Exchange.otherExc "Invalid URL: No scheme supplied. Perhaps you meant https://?"

theorem dictLookup_dictSet_self (d : PyDict) (k : String) (v : PyVal) :
    dictLookup (dictSet d k v) k = some v := by
  induction d with
  | nil => simp [dictSet, dictLookup]
  | cons p rest ih =>
    obtain ⟨k0, v0⟩ := p
    by_cases h : k0 = k
    · simp [dictSet, h, dictLookup]
    · simp [dictSet, h, dictLookup, ih]

theorem dictLookup_dictSet_ne (d : PyDict) (k k2 : String) (v : PyVal) (h : k2 ≠ k) :
    dictLookup (dictSet d k v) k2 = dictLookup d k2 := by
  induction d with
  | nil => simp [dictSet, dictLookup, Ne.symm h]
  | cons p rest ih =>
    obtain ⟨k0, v0⟩ := p
    by_cases h0 : k0 = k
    · subst h0
      simp [dictSet, dictLookup, Ne.symm h]
    · simp [dictSet, h0, dictLookup, ih]

/-- C2: when the roster is empty, `check_all_webapps` returns exactly the
report with success false, error No webapp data found, empty results and no
timestamp; and the empty roster is the only way a report has success false. -/
theorem C2_empty_roster :
    (∀ (completed : List (PyDict × Exchange × Exchange)) (ts : String),
      check_all_webapps [] completed ts =
        { success := false, error := some "No webapp data found", results := [],
          timestamp := Option.none }) ∧
    (∀ (webapps : List PyDict) (completed : List (PyDict × Exchange × Exchange)) (ts : String),
      (check_all_webapps webapps completed ts).success = false ↔ webapps = []) := by
  refine ⟨fun completed ts => rfl, ?_⟩
  intro webapps completed ts
  cases webapps with
  | nil => simp [check_all_webapps]
  | cons a l => simp [check_all_webapps]

/-- C5: `check_endpoint` maps a completed exchange as follows: status 200
yields success true and no error with the body JSON-decoded, or kept as the
raw text when decoding fails; any other status yields success false with
error HTTP code and the status code recorded; a timeout yields success
false, error Timeout, and no status code. -/
theorem C5_probe_classification :
    (∀ (jsonBody : Option PyVal) (text : String),
      check_endpoint (Exchange.response 200 jsonBody text) =
        ⟨some 200, true,
          some (match jsonBody with | some v => v | Option.none => PyVal.vstr text),
          Option.none⟩) ∧
    (∀ (s : Nat) (jsonBody : Option PyVal) (text : String), s ≠ 200 →
      check_endpoint (Exchange.response s jsonBody text) =
        ⟨some s, false, Option.none, some ("HTTP " ++ toString s)⟩) ∧
    check_endpoint Exchange.timeoutExc =
      ⟨Option.none, false, Option.none, some "Timeout"⟩ := by
  refine ⟨?_, ?_, rfl⟩
  · intro jsonBody text
    cases jsonBody <;> rfl
  · intro s jsonBody text hs
    cases jsonBody <;> simp [check_endpoint, hs]

/-- Witness for C5 at concrete exchanges: a 200 response with a decoded
body, a 404 response, and a timeout. -/
theorem C5_probe_classification_witness :
    check_endpoint (Exchange.response 200 (some (PyVal.vdict [("status", PyVal.vstr "UP")])) "") =
      ⟨some 200, true, some (PyVal.vdict [("status", PyVal.vstr "UP")]), Option.none⟩ ∧
    check_endpoint (Exchange.response 404 Option.none "not found") =
      ⟨some 404, false, Option.none, some "HTTP 404"⟩ ∧
    check_endpoint Exchange.timeoutExc =
      ⟨Option.none, false, Option.none, some "Timeout"⟩ :=
  ⟨C5_probe_classification.1 (some (PyVal.vdict [("status", PyVal.vstr "UP")])) "",
   C5_probe_classification.2.1 404 Option.none "not found" (by decide),
   C5_probe_classification.2.2⟩

/-- C7, counterexample: on the exchange produced by an empty URL — the
`MissingSchema` exception of the `requests` library, which is not a
`ConnectionError` — `check_endpoint` returns the fault message, not the
string Connection Error, so the claimed classification fails at the empty
URL. -/
theorem C7_counterexample :
    check_endpoint emptyUrlExchange =
      ⟨Option.none, false, Option.none,
        some "Invalid URL: No scheme supplied. Perhaps you meant https://?"⟩ ∧
    (some "Invalid URL: No scheme supplied. Perhaps you meant https://?" : Option String) ≠
      some "Connection Error" :=
  ⟨rfl, by decide⟩

/-- C7, amended: an empty or malformed URL still yields a `ProbeOutcome`
with success false and no status code — no unhandled fault propagates, every
unexpected exception maps to an outcome carrying the fault message — but the
error field holds the fault message (for the empty URL, the invalid-URL
message of `requests`), not the string Connection Error, which is reserved
for `requests.exceptions.ConnectionError`. -/
theorem C7_probe_fault_containment :
    (∀ (msg : String), check_endpoint (Exchange.otherExc msg) =
      ⟨Option.none, false, Option.none, some msg⟩) ∧
    check_endpoint Exchange.connectionErrorExc =
      ⟨Option.none, false, Option.none, some "Connection Error"⟩ ∧
    (check_endpoint emptyUrlExchange).success = false ∧
    (check_endpoint emptyUrlExchange).status_code = Option.none ∧
    (check_endpoint emptyUrlExchange).error =
      some "Invalid URL: No scheme supplied. Perhaps you meant https://?" :=
  ⟨fun _ => rfl, rfl, rfl, rfl, rfl⟩

/-- C8: for every body that is not a mapping, `extract_git_info` returns the
empty dict — no fields populated. -/
theorem C8_nonmapping_empty :
    ∀ (body : PyVal), isMapping body = false → extract_git_info body = Except.ok [] := by
  intro body h
  cases body <;> simp_all [isMapping, extract_git_info]

/-- Witness for C8 at the plain-text body OK. -/
theorem C8_nonmapping_empty_witness :
    isMapping (PyVal.vstr "OK") = false ∧
    extract_git_info (PyVal.vstr "OK") = Except.ok [] :=
  ⟨rfl, C8_nonmapping_empty (PyVal.vstr "OK") rfl⟩

/-- C10: on a mapping that lacks the git and build keys, `extract_git_info`
returns the fully populated default dict with branch, commit and
java_version all set to N/A — because the absent keys default to empty
dicts, which pass the mapping tests. -/
theorem C10_missing_keys_full_default :
    ∀ (d : PyDict), dictLookup d "git" = Option.none → dictLookup d "build" = Option.none →
      extract_git_info (PyVal.vdict d) =
        Except.ok [("branch", PyVal.vstr "N/A"), ("commit", PyVal.vstr "N/A"),
          ("java_version", PyVal.vstr "N/A")] := by
  intro d hg hb
  simp [extract_git_info, dictGet, hg, hb, gitPart, commitPart, dictLookup, pyTruthy,
    buildPart, dictSet]

/-- Witness for C10 at the empty mapping. -/
theorem C10_missing_keys_full_default_witness :
    dictLookup ([] : PyDict) "git" = Option.none ∧
    dictLookup ([] : PyDict) "build" = Option.none ∧
    extract_git_info (PyVal.vdict []) =
      Except.ok [("branch", PyVal.vstr "N/A"), ("commit", PyVal.vstr "N/A"),
        ("java_version", PyVal.vstr "N/A")] :=
  ⟨rfl, rfl, C10_missing_keys_full_default [] rfl rfl⟩

/-- A concrete roster record with the six CSV fields, used by witnesses. -/
def sampleRecord : PyDict :=
  [("webname", PyVal.vstr "svc"), ("env", PyVal.vstr "prod"),
   ("healthUrl", PyVal.vstr "http://h/health"), ("infoUrl", PyVal.vstr "http://i/info"),
   ("port", PyVal.vstr "8080"), ("supportEmail", PyVal.vstr "ops@example.com")]

/-- A metadata exchange whose 200 body makes `extract_git_info` raise: the
commit field is a truthy non-dict, so line 91 raises `AttributeError` and
the exception escapes `check_single_webapp`. -/
def faultyInfoExchange : Exchange :=
  Exchange.response 200
    (some (PyVal.vdict [("git", PyVal.vdict [("commit", PyVal.vstr "abc")])])) ""

theorem fallback_lookup_notin (w : PyDict) (msg k : String)
    (h1 : k ≠ "health_status") (h2 : k ≠ "health_error") (h3 : k ≠ "info_status")
    (h4 : k ≠ "info_error") (h5 : k ≠ "git_info") :
    dictLookup (fallback_result w msg) k = dictLookup w k := by
  unfold fallback_result
  rw [dictLookup_dictSet_ne _ _ _ _ h5, dictLookup_dictSet_ne _ _ _ _ h4,
    dictLookup_dictSet_ne _ _ _ _ h3, dictLookup_dictSet_ne _ _ _ _ h2,
    dictLookup_dictSet_ne _ _ _ _ h1]

theorem fallback_lookup_health_status (w : PyDict) (msg : String) :
    dictLookup (fallback_result w msg) "health_status" = some (PyVal.vbool false) := by
  unfold fallback_result
  rw [dictLookup_dictSet_ne _ "git_info" "health_status" _ (by decide),
    dictLookup_dictSet_ne _ "info_error" "health_status" _ (by decide),
    dictLookup_dictSet_ne _ "info_status" "health_status" _ (by decide),
    dictLookup_dictSet_ne _ "health_error" "health_status" _ (by decide),
    dictLookup_dictSet_self]

theorem fallback_lookup_health_error (w : PyDict) (msg : String) :
    dictLookup (fallback_result w msg) "health_error" =
      some (PyVal.vstr ("Check failed: " ++ msg)) := by
  unfold fallback_result
  rw [dictLookup_dictSet_ne _ "git_info" "health_error" _ (by decide),
    dictLookup_dictSet_ne _ "info_error" "health_error" _ (by decide),
    dictLookup_dictSet_ne _ "info_status" "health_error" _ (by decide),
    dictLookup_dictSet_self]

theorem fallback_lookup_info_status (w : PyDict) (msg : String) :
    dictLookup (fallback_result w msg) "info_status" = some (PyVal.vbool false) := by
  unfold fallback_result
  rw [dictLookup_dictSet_ne _ "git_info" "info_status" _ (by decide),
    dictLookup_dictSet_ne _ "info_error" "info_status" _ (by decide),
    dictLookup_dictSet_self]

theorem fallback_lookup_info_error (w : PyDict) (msg : String) :
    dictLookup (fallback_result w msg) "info_error" =
      some (PyVal.vstr ("Check failed: " ++ msg)) := by
  unfold fallback_result
  rw [dictLookup_dictSet_ne _ "git_info" "info_error" _ (by decide),
    dictLookup_dictSet_self]

theorem fallback_lookup_git_info (w : PyDict) (msg : String) :
    dictLookup (fallback_result w msg) "git_info" = some (PyVal.vdict []) := by
  unfold fallback_result
  rw [dictLookup_dictSet_self]

/-- C1: for every non-empty roster, the report has success true and exactly
one result entry per completed task; since `as_completed` yields every
submitted future exactly once, the completed tasks are a permutation of the
roster, so the report holds exactly N entries and every roster record is
accounted for — no service is silently dropped, however many probes fail or
tasks fault. -/
theorem C1_sweep_count (webapps : List PyDict)
    (completed : List (PyDict × Exchange × Exchange)) (ts : String)
    (hne : webapps ≠ [])
    (hperm : (completed.map Prod.fst).Perm webapps) :
    (check_all_webapps webapps completed ts).success = true ∧
    (check_all_webapps webapps completed ts).results.length = webapps.length ∧
    ∀ w ∈ webapps, ∃ he ie, (w, he, ie) ∈ completed ∧
      process_future (w, he, ie) ∈ (check_all_webapps webapps completed ts).results := by
  have hempty : webapps.isEmpty = false := by
    cases webapps with
    | nil => exact absurd rfl hne
    | cons a l => rfl
  refine ⟨by simp [check_all_webapps, hempty], ?_, ?_⟩
  · have h1 := hperm.length_eq
    simp only [List.length_map] at h1
    simp [check_all_webapps, hempty, h1]
  · intro w hw
    have hw2 : w ∈ completed.map Prod.fst := hperm.mem_iff.mpr hw
    obtain ⟨t, ht, hfst⟩ := List.mem_map.mp hw2
    obtain ⟨w1, he, ie⟩ := t
    cases hfst
    refine ⟨he, ie, ht, ?_⟩
    have := List.mem_map_of_mem process_future ht
    simpa [check_all_webapps, hempty] using this

/-- Witness for C1 on a one-record roster whose single task observes two
timeouts. -/
theorem C1_sweep_count_witness :
    (check_all_webapps [sampleRecord]
      [(sampleRecord, Exchange.timeoutExc, Exchange.timeoutExc)]
      "2024-01-01 00:00:00").success = true ∧
    (check_all_webapps [sampleRecord]
      [(sampleRecord, Exchange.timeoutExc, Exchange.timeoutExc)]
      "2024-01-01 00:00:00").results.length = 1 := by
  have h := C1_sweep_count [sampleRecord]
    [(sampleRecord, Exchange.timeoutExc, Exchange.timeoutExc)] "2024-01-01 00:00:00"
    (by simp) (by exact List.Perm.refl _)
  exact ⟨h.1, h.2.1⟩

/-- C3: when a task faults (the exception of `check_single_webapp` escapes),
the coordinator appends the fallback result for that record: success false
for both probes, both error fields prefixed with Check failed: followed by
the fault message, empty git_info, and all other fields (in particular the
six roster fields) taken from the record unchanged. The sweep itself is not
aborted: the fallback entry is in the report results. -/
theorem C3_task_fault_fallback (webapps : List PyDict)
    (completed : List (PyDict × Exchange × Exchange)) (ts : String)
    (w : PyDict) (he ie : Exchange) (msg : String)
    (hne : webapps ≠ [])
    (hmem : (w, he, ie) ∈ completed)
    (hfault : check_single_webapp w he ie = Except.error msg) :
    fallback_result w msg ∈ (check_all_webapps webapps completed ts).results ∧
    dictLookup (fallback_result w msg) "health_status" = some (PyVal.vbool false) ∧
    dictLookup (fallback_result w msg) "info_status" = some (PyVal.vbool false) ∧
    dictLookup (fallback_result w msg) "health_error" =
      some (PyVal.vstr ("Check failed: " ++ msg)) ∧
    dictLookup (fallback_result w msg) "info_error" =
      some (PyVal.vstr ("Check failed: " ++ msg)) ∧
    dictLookup (fallback_result w msg) "git_info" = some (PyVal.vdict []) ∧
    ∀ (k : String),
      k ∉ ["health_status", "health_error", "info_status", "info_error", "git_info"] →
      dictLookup (fallback_result w msg) k = dictLookup w k := by
  have hempty : webapps.isEmpty = false := by
    cases webapps with
    | nil => exact absurd rfl hne
    | cons a l => rfl
  refine ⟨?_, fallback_lookup_health_status w msg, fallback_lookup_info_status w msg,
    fallback_lookup_health_error w msg, fallback_lookup_info_error w msg,
    fallback_lookup_git_info w msg, ?_⟩
  · have hx : process_future (w, he, ie) = fallback_result w msg := by
      simp [process_future, hfault]
    have hy := List.mem_map_of_mem process_future hmem
    rw [hx] at hy
    simpa [check_all_webapps, hempty] using hy
  · intro k hk
    simp only [List.mem_cons, List.not_mem_nil, or_false, not_or] at hk
    exact fallback_lookup_notin w msg k hk.1 hk.2.1 hk.2.2.1 hk.2.2.2.1 hk.2.2.2.2

/-- Witness for C3: a one-record roster whose task faults because the
metadata body carries a truthy non-dict commit value. -/
theorem C3_task_fault_fallback_witness :
    fallback_result sampleRecord gitAttrError ∈
      (check_all_webapps [sampleRecord]
        [(sampleRecord, Exchange.timeoutExc, faultyInfoExchange)]
        "2024-01-01 00:00:00").results ∧
    dictLookup (fallback_result sampleRecord gitAttrError) "health_error" =
      some (PyVal.vstr ("Check failed: " ++ gitAttrError)) ∧
    dictLookup (fallback_result sampleRecord gitAttrError) "webname" =
      dictLookup sampleRecord "webname" := by
  have h := C3_task_fault_fallback [sampleRecord]
    [(sampleRecord, Exchange.timeoutExc, faultyInfoExchange)] "2024-01-01 00:00:00"
    sampleRecord Exchange.timeoutExc faultyInfoExchange gitAttrError
    (by simp) (by simp) rfl
  exact ⟨h.1, h.2.2.2.1, h.2.2.2.2.2.2 "webname" (by decide)⟩

/-- Values Python slicing accepts (sequences, as far as this program sees
them): strings and lists. -/
def sliceableVal : PyVal → Bool
  | PyVal.vstr _ => true
  | PyVal.vlist _ => true
  | _ => false

/-- Shapes of the commit value on which line 91 of `app.py` cannot raise:
any falsy value (the else branch), or a dict whose id value (defaulting to
the string N/A) is sliceable. -/
def commitOk (c : PyVal) : Bool :=
  if pyTruthy c then
    match c with
    | PyVal.vdict cd => sliceableVal (dictGet cd "id" (PyVal.vstr "N/A"))
    | _ => false
  else true

/-- Bodies on which `extract_git_info` cannot raise: everything except a
mapping whose git value is a mapping with an ill-shaped commit value. -/
def bodyWellShaped : PyVal → Bool
  | PyVal.vdict d =>
    match dictGet d "git" (PyVal.vdict []) with
    | PyVal.vdict gd => commitOk (dictGet gd "commit" PyVal.vnone)
    | _ => true
  | _ => true

theorem truthy_lookup_some (gd : PyDict) (k : String)
    (h : pyTruthy (dictGet gd k PyVal.vnone) = true) : dictLookup gd k ≠ Option.none := by
  intro hl
  rw [dictGet, hl] at h
  simp [pyTruthy] at h

theorem dictGet_default_irrel (gd : PyDict) (k : String) (d1 d2 : PyVal)
    (h : dictLookup gd k ≠ Option.none) :
    dictGet gd k d1 = dictGet gd k d2 := by
  cases hl : dictLookup gd k with
  | none => exact absurd hl h
  | some v => simp [dictGet, hl]

theorem dictGet_eq_of_ne_default (gd : PyDict) (k : String) (d1 d2 v : PyVal)
    (h : dictGet gd k d1 = v) (hv : v ≠ d1) : dictGet gd k d2 = v := by
  unfold dictGet at h ⊢
  cases hl : dictLookup gd k with
  | none =>
    rw [hl] at h
    simp at h
    exact absurd h.symm hv
  | some w =>
    rw [hl] at h
    simpa using h

theorem pySlice8_ok (v : PyVal) (h : sliceableVal v = true) :
    ∃ w, pySlice8 v = Except.ok w := by
  cases v with
  | vstr s => exact ⟨_, rfl⟩
  | vlist xs => exact ⟨_, rfl⟩
  | vnone => simp [sliceableVal] at h
  | vbool b => simp [sliceableVal] at h
  | vint n => simp [sliceableVal] at h
  | vdict xs => simp [sliceableVal] at h

theorem commitPart_ok (gd : PyDict)
    (h : commitOk (dictGet gd "commit" PyVal.vnone) = true) :
    ∃ c, commitPart gd = Except.ok c := by
  unfold commitPart
  by_cases ht : pyTruthy (dictGet gd "commit" PyVal.vnone) = true
  · have heq : dictGet gd "commit" (PyVal.vdict []) = dictGet gd "commit" PyVal.vnone :=
      (dictGet_default_irrel gd "commit" PyVal.vnone (PyVal.vdict [])
        (truthy_lookup_some gd "commit" ht)).symm
    rw [if_pos ht, heq]
    unfold commitOk at h
    rw [if_pos ht] at h
    cases hc : dictGet gd "commit" PyVal.vnone with
    | vdict cd =>
      rw [hc] at h
      simp only [] at h
      exact pySlice8_ok _ h
    | vnone => rw [hc] at ht; simp [pyTruthy] at ht
    | vbool b => rw [hc] at h; simp at h
    | vint n => rw [hc] at h; simp at h
    | vstr s => rw [hc] at h; simp at h
    | vlist xs => rw [hc] at h; simp at h
  · rw [if_neg ht]
    exact ⟨_, rfl⟩

/-- C4, counterexample: `extract_git_info` does raise on the two input
shapes the claim names — a truthy non-mapping commit value raises
`AttributeError` at the `.get` call, and a non-sliceable commit id raises
`TypeError` at the slice — so the extractor is not total as claimed. -/
theorem C4_counterexample :
    extract_git_info (PyVal.vdict [("git", PyVal.vdict [("commit", PyVal.vstr "abc")])]) =
      Except.error gitAttrError ∧
    extract_git_info (PyVal.vdict [("git",
        PyVal.vdict [("commit", PyVal.vdict [("id", PyVal.vint 5)])])]) =
      Except.error "TypeError: value is not subscriptable" :=
  ⟨rfl, rfl⟩

/-- C4, amended: `extract_git_info` returns a metadata dict without raising
for every body except a mapping whose git value is a mapping carrying a
truthy commit value that is not a mapping (AttributeError at `.get`) or a
mapping whose id value is not sliceable (TypeError at the slice). On every
well-shaped body — non-mappings, scalars, text, absent fields, falsy commit
values — shape mismatches degrade to missing-field defaults. -/
theorem C4_extract_no_raise (body : PyVal) (h : bodyWellShaped body = true) :
    ∃ gi, extract_git_info body = Except.ok gi := by
  cases body with
  | vdict d =>
    simp only [bodyWellShaped] at h
    simp only [extract_git_info]
    cases hg : dictGet d "git" (PyVal.vdict []) with
    | vdict gd =>
      rw [hg] at h
      simp only [] at h
      obtain ⟨c, hc⟩ := commitPart_ok gd h
      have hgp : gitPart [] (PyVal.vdict gd) =
          Except.ok (dictSet (dictSet [] "branch" (dictGet gd "branch" (PyVal.vstr "N/A")))
            "commit" c) := by
        simp [gitPart, hc]
      rw [hgp]
      exact ⟨_, rfl⟩
    | vnone => exact ⟨_, rfl⟩
    | vbool b => exact ⟨_, rfl⟩
    | vint n => exact ⟨_, rfl⟩
    | vstr s => exact ⟨_, rfl⟩
    | vlist xs => exact ⟨_, rfl⟩
  | vnone => exact ⟨[], rfl⟩
  | vbool b => exact ⟨[], rfl⟩
  | vint n => exact ⟨[], rfl⟩
  | vstr s => exact ⟨[], rfl⟩
  | vlist xs => exact ⟨[], rfl⟩

/-- Witness for C4 amended, at a well-shaped full metadata body. -/
theorem C4_extract_no_raise_witness :
    bodyWellShaped (PyVal.vdict [("git", PyVal.vdict [("branch", PyVal.vstr "main"),
        ("commit", PyVal.vdict [("id", PyVal.vstr "abcdef1234567")])]),
      ("build", PyVal.vdict [("version", PyVal.vstr "1.2.0")])]) = true ∧
    ∃ gi, extract_git_info (PyVal.vdict [("git", PyVal.vdict [("branch", PyVal.vstr "main"),
        ("commit", PyVal.vdict [("id", PyVal.vstr "abcdef1234567")])]),
      ("build", PyVal.vdict [("version", PyVal.vstr "1.2.0")])]) = Except.ok gi :=
  ⟨rfl, C4_extract_no_raise _ rfl⟩

theorem dictLookup_buildPart_ne (gi : PyDict) (b : PyVal) (k : String)
    (h : k ≠ "java_version") :
    dictLookup (buildPart gi b) k = dictLookup gi k := by
  cases b with
  | vdict bd => exact dictLookup_dictSet_ne _ _ _ _ h
  | vnone => rfl
  | vbool b2 => rfl
  | vint n => rfl
  | vstr s => rfl
  | vlist xs => rfl

/-- C6, counterexample: on a body whose commit mapping carries an
empty-string id, the code truncates the empty string and stores the empty
string as the commit identifier, not N/A as the claim states (the commit
mapping is truthy, so the else branch returning N/A is not taken). -/
theorem C6_counterexample :
    extract_git_info (PyVal.vdict [("git",
        PyVal.vdict [("commit", PyVal.vdict [("id", PyVal.vstr "")])])]) =
      Except.ok [("branch", PyVal.vstr "N/A"), ("commit", PyVal.vstr ""),
        ("java_version", PyVal.vstr "N/A")] ∧
    dictLookup [("branch", PyVal.vstr "N/A"), ("commit", PyVal.vstr ""),
        ("java_version", PyVal.vstr "N/A")] "commit" = some (PyVal.vstr "") ∧
    PyVal.vstr "" ≠ PyVal.vstr "N/A" := by
  refine ⟨rfl, rfl, ?_⟩
  intro h
  injection h with h2
  exact absurd h2 (by decide)

/-- C6, amended: when the nested commit value is a non-empty mapping, the
extracted commit identifier is the first 8 characters of its id string (with
id defaulting to the string N/A when absent) — in particular an empty-string
id yields the empty string, not N/A; the identifier is N/A exactly when the
commit value is absent or falsy. Branch and build version are read as in the
concrete example, which yields branch main, commit abcdef12, java_version
1.2.0. -/
theorem C6_commit_truncation :
    (∀ (d gd cd bd : PyDict) (s : String),
      dictGet d "git" (PyVal.vdict []) = PyVal.vdict gd →
      dictGet gd "commit" PyVal.vnone = PyVal.vdict cd →
      cd ≠ [] →
      dictGet cd "id" (PyVal.vstr "N/A") = PyVal.vstr s →
      dictGet d "build" (PyVal.vdict []) = PyVal.vdict bd →
      ∃ gi, extract_git_info (PyVal.vdict d) = Except.ok gi ∧
        dictLookup gi "commit" = some (PyVal.vstr (s.take 8)) ∧
        dictLookup gi "branch" = some (dictGet gd "branch" (PyVal.vstr "N/A")) ∧
        dictLookup gi "java_version" = some (dictGet bd "version" (PyVal.vstr "N/A"))) ∧
    (∀ (d gd : PyDict),
      dictGet d "git" (PyVal.vdict []) = PyVal.vdict gd →
      pyTruthy (dictGet gd "commit" PyVal.vnone) = false →
      ∃ gi, extract_git_info (PyVal.vdict d) = Except.ok gi ∧
        dictLookup gi "commit" = some (PyVal.vstr "N/A")) := by
  constructor
  · intro d gd cd bd s hgit hcommit hne hid hbuild
    have htr : pyTruthy (dictGet gd "commit" PyVal.vnone) = true := by
      rw [hcommit]
      cases cd with
      | nil => exact absurd rfl hne
      | cons x xs => rfl
    have hcd2 : dictGet gd "commit" (PyVal.vdict []) = PyVal.vdict cd :=
      dictGet_eq_of_ne_default gd "commit" PyVal.vnone (PyVal.vdict []) _ hcommit
        (fun hh => PyVal.noConfusion hh)
    have hcp : commitPart gd = Except.ok (PyVal.vstr (s.take 8)) := by
      unfold commitPart
      rw [if_pos htr, hcd2]
      show pySlice8 (dictGet cd "id" (PyVal.vstr "N/A")) = _
      rw [hid]
      rfl
    have hgp : gitPart [] (PyVal.vdict gd) =
        Except.ok (dictSet (dictSet [] "branch" (dictGet gd "branch" (PyVal.vstr "N/A")))
          "commit" (PyVal.vstr (s.take 8))) := by
      simp [gitPart, hcp]
    have hex : extract_git_info (PyVal.vdict d) =
        Except.ok (dictSet
          (dictSet (dictSet [] "branch" (dictGet gd "branch" (PyVal.vstr "N/A")))
            "commit" (PyVal.vstr (s.take 8)))
          "java_version" (dictGet bd "version" (PyVal.vstr "N/A"))) := by
      simp only [extract_git_info]
      rw [hgit, hgp]
      show Except.ok (buildPart _ (dictGet d "build" (PyVal.vdict []))) = _
      rw [hbuild]
      rfl
    refine ⟨_, hex, ?_, ?_, ?_⟩
    · rw [dictLookup_dictSet_ne _ "java_version" "commit" _ (by decide),
        dictLookup_dictSet_self]
    · rw [dictLookup_dictSet_ne _ "java_version" "branch" _ (by decide),
        dictLookup_dictSet_ne _ "commit" "branch" _ (by decide),
        dictLookup_dictSet_self]
    · rw [dictLookup_dictSet_self]
  · intro d gd hgit hfl
    have hcp2 : commitPart gd = Except.ok (PyVal.vstr "N/A") := by
      unfold commitPart
      rw [if_neg (by simp [hfl])]
    have hgp2 : gitPart [] (PyVal.vdict gd) =
        Except.ok (dictSet (dictSet [] "branch" (dictGet gd "branch" (PyVal.vstr "N/A")))
          "commit" (PyVal.vstr "N/A")) := by
      simp [gitPart, hcp2]
    refine ⟨buildPart (dictSet (dictSet [] "branch" (dictGet gd "branch" (PyVal.vstr "N/A")))
        "commit" (PyVal.vstr "N/A")) (dictGet d "build" (PyVal.vdict [])), ?_, ?_⟩
    · simp only [extract_git_info]
      rw [hgit, hgp2]
    · rw [dictLookup_buildPart_ne _ _ _ (by decide), dictLookup_dictSet_self]

/-- Witness for C6 amended: the concrete metadata example, and a body with a
falsy commit value. -/
theorem C6_commit_truncation_witness :
    (∃ gi, extract_git_info (PyVal.vdict [("git", PyVal.vdict [("branch", PyVal.vstr "main"),
        ("commit", PyVal.vdict [("id", PyVal.vstr "abcdef1234567")])]),
      ("build", PyVal.vdict [("version", PyVal.vstr "1.2.0")])]) = Except.ok gi ∧
      dictLookup gi "commit" = some (PyVal.vstr (("abcdef1234567" : String).take 8)) ∧
      dictLookup gi "branch" = some (PyVal.vstr "main") ∧
      dictLookup gi "java_version" = some (PyVal.vstr "1.2.0")) ∧
    (∃ gi, extract_git_info (PyVal.vdict [("git", PyVal.vdict [])]) = Except.ok gi ∧
      dictLookup gi "commit" = some (PyVal.vstr "N/A")) :=
  ⟨C6_commit_truncation.1
      [("git", PyVal.vdict [("branch", PyVal.vstr "main"),
          ("commit", PyVal.vdict [("id", PyVal.vstr "abcdef1234567")])]),
        ("build", PyVal.vdict [("version", PyVal.vstr "1.2.0")])]
      [("branch", PyVal.vstr "main"), ("commit", PyVal.vdict [("id", PyVal.vstr "abcdef1234567")])]
      [("id", PyVal.vstr "abcdef1234567")]
      [("version", PyVal.vstr "1.2.0")]
      "abcdef1234567" rfl rfl (by simp) rfl rfl,
   C6_commit_truncation.2 [("git", PyVal.vdict [])] [] rfl rfl⟩

theorem probe_fields_lookup_codes (w : PyDict) (h i : ProbeOutcome) :
    dictLookup (probe_fields w h i) "health_status_code" = some (optCodeToPy h.status_code) ∧
    dictLookup (probe_fields w h i) "info_status_code" = some (optCodeToPy i.status_code) := by
  unfold probe_fields
  constructor
  · rw [dictLookup_dictSet_ne _ "info_status_code" "health_status_code" _ (by decide),
      dictLookup_dictSet_ne _ "info_error" "health_status_code" _ (by decide),
      dictLookup_dictSet_ne _ "info_status" "health_status_code" _ (by decide),
      dictLookup_dictSet_self]
  · rw [dictLookup_dictSet_self]

/-- C9, counterexample: on a one-record roster whose task faults, the single
report entry is the fallback dict, and that dict contains neither a
health_status_code nor an info_status_code field — so not every entry
carries the two status-code fields as the claim states. -/
theorem C9_counterexample :
    (check_all_webapps [sampleRecord]
        [(sampleRecord, Exchange.timeoutExc, faultyInfoExchange)]
        "2024-01-01 00:00:00").results =
      [fallback_result sampleRecord gitAttrError] ∧
    dictLookup (fallback_result sampleRecord gitAttrError) "health_status_code" =
      Option.none ∧
    dictLookup (fallback_result sampleRecord gitAttrError) "info_status_code" =
      Option.none :=
  ⟨rfl, rfl, rfl⟩

/-- C9, amended: every entry produced by a successfully completed task
contains both status-code fields, holding Python None exactly when the
corresponding request never completed (the probe recorded no status code);
but the fallback entry constructed for a faulted task contains neither
status-code field (it only updates the five fields of the error literal over
the record, and roster records carry no status-code keys). -/
theorem C9_status_code_fields :
    (∀ (w : PyDict) (he ie : Exchange) (r : PyDict),
      check_single_webapp w he ie = Except.ok r →
      dictLookup r "health_status_code" =
        some (optCodeToPy (check_endpoint he).status_code) ∧
      dictLookup r "info_status_code" =
        some (optCodeToPy (check_endpoint ie).status_code)) ∧
    (∀ (w : PyDict) (msg : String),
      dictLookup w "health_status_code" = Option.none →
      dictLookup w "info_status_code" = Option.none →
      dictLookup (fallback_result w msg) "health_status_code" = Option.none ∧
      dictLookup (fallback_result w msg) "info_status_code" = Option.none) := by
  constructor
  · intro w he ie r hr
    simp only [check_single_webapp] at hr
    split at hr
    · split at hr
      · injection hr with hr2
        subst hr2
        constructor
        · rw [dictLookup_dictSet_ne _ "git_info" "health_status_code" _ (by decide)]
          exact (probe_fields_lookup_codes w (check_endpoint he) (check_endpoint ie)).1
        · rw [dictLookup_dictSet_ne _ "git_info" "info_status_code" _ (by decide)]
          exact (probe_fields_lookup_codes w (check_endpoint he) (check_endpoint ie)).2
      · exact Except.noConfusion hr
    · injection hr with hr2
      subst hr2
      constructor
      · rw [dictLookup_dictSet_ne _ "git_info" "health_status_code" _ (by decide)]
        exact (probe_fields_lookup_codes w (check_endpoint he) (check_endpoint ie)).1
      · rw [dictLookup_dictSet_ne _ "git_info" "info_status_code" _ (by decide)]
        exact (probe_fields_lookup_codes w (check_endpoint he) (check_endpoint ie)).2
  · intro w msg hw1 hw2
    constructor
    · rw [fallback_lookup_notin w msg "health_status_code" (by decide) (by decide) (by decide)
        (by decide) (by decide)]
      exact hw1
    · rw [fallback_lookup_notin w msg "info_status_code" (by decide) (by decide) (by decide)
        (by decide) (by decide)]
      exact hw2

/-- The concrete result of a successfully completed task used by the C9
witness: health probe timed out, info probe answered 404. -/
def sampleOkResult : PyDict :=
  match check_single_webapp sampleRecord Exchange.timeoutExc
      (Exchange.response 404 Option.none "") with
  | Except.ok r => r
  | Except.error _ => []

/-- Witness for C9 amended: a completed task whose health request never
completed (timeout, code None) and whose info request answered 404, plus a
fallback entry over a roster record. -/
theorem C9_status_code_fields_witness :
    (dictLookup sampleOkResult "health_status_code" =
        some (optCodeToPy (check_endpoint Exchange.timeoutExc).status_code) ∧
      dictLookup sampleOkResult "info_status_code" =
        some (optCodeToPy (check_endpoint (Exchange.response 404 Option.none "")).status_code)) ∧
    (dictLookup (fallback_result sampleRecord "boom") "health_status_code" = Option.none ∧
      dictLookup (fallback_result sampleRecord "boom") "info_status_code" = Option.none) :=
  ⟨C9_status_code_fields.1 sampleRecord Exchange.timeoutExc
      (Exchange.response 404 Option.none "") sampleOkResult rfl,
   C9_status_code_fields.2 sampleRecord "boom" rfl rfl⟩
